import Mathlib

/-!
Shallow embedding of the HC32F46x Arduino core excerpt:
  src/cores/arduino/drivers/adc/adc.cpp
  src/cores/arduino/wiring_digital.cpp

Vendor SDK calls (ADC_Init, DMA_InitChannel, GPIO_SetBits, ...) are modelled
as recorded effects on an explicit MCU state.  Debug assertions (CORE_ASSERT)
record an `assertFailure` effect when their condition is false and execution
continues, matching release-build semantics while keeping the debug-build
failure observable in the trace.
-/

namespace HC32

/-- en_functional_state_t of the vendor SDK. -/
inductive FuncState
| Enable
| Disable
deriving DecidableEq

/-- en_flag_status_t of the vendor SDK. -/
inductive FlagStatus
| FlagSet
| FlagReset
deriving DecidableEq

/-- en_dma_irq_sel_t: DMA interrupt selectors used by this code. -/
inductive DmaIrqSel
| TrnCpltIrq
| BlkTrnCpltIrq
deriving DecidableEq

/-- en_adc_clren_t: automatic clearing of the ADC data register. -/
inductive AdcClren
| AdcClren_Disable
| AdcClren_Enable
deriving DecidableEq

/-- en_adc_rschsel_t: restart-channel-select behaviour. -/
inductive AdcRschsel
| AdcRschsel_Continue
| AdcRschsel_Restart
deriving DecidableEq

/-- en_dma_address_mode_t for DMA source/destination increments. -/
inductive AddressMode
| AddressIncrease
| AddressDecrease
| AddressFix
deriving DecidableEq

/-- en_dma_transfer_width_t. -/
inductive DmaTrnWidth
| Dma8Bit
| Dma16Bit
| Dma32Bit
deriving DecidableEq

/-- en_pin_mode_t of the vendor SDK. -/
inductive PinModeHw
| Pin_Mode_In
| Pin_Mode_Out
| Pin_Mode_Ana
deriving DecidableEq

/-- A machine address appearing in a DMA configuration: either the DR0 data
register of an ADC peripheral or a RAM buffer at a symbolic address. -/
inductive DmaAddress
| adcDataRegister0 (adc_register_base : Nat)
| ramBuffer (addr : Nat)
deriving DecidableEq

/-- stc_adc_init_t, restricted to the fields this code populates. -/
structure StcAdcInit where
  enResolution : Nat
  enDataAlign : Nat
  enAutoClear : AdcClren
  enScanMode : Nat
  enRschsel : AdcRschsel
deriving DecidableEq

/-- stc_dma_ch_cfg_t, the fields populated by adc_dma_init. -/
structure StcDmaChCfg where
  enSrcInc : AddressMode
  enDesInc : AddressMode
  enSrcRptEn : FuncState
  enDesRptEn : FuncState
  enSrcNseqEn : FuncState
  enDesNseqEn : FuncState
  enTrnWidth : DmaTrnWidth
  enLlpEn : FuncState
  enIntEn : FuncState
deriving DecidableEq

/-- stc_dma_config_t, the fields populated by adc_dma_init. -/
structure StcDmaConfig where
  u16BlockSize : Nat
  u16TransferCnt : Nat
  u32SrcAddr : DmaAddress
  u32DesAddr : DmaAddress
  u16SrcRptSize : Nat
  u16DesRptSize : Nat
  stcDmaChCfg : StcDmaChCfg
deriving DecidableEq

/-- stc_adc_ch_cfg_t.  The source stores a pointer pu8SampTime to a sample
time byte; the model records the pointed-to value. -/
structure StcAdcChCfg where
  u32Channel : Nat
  u8Sequence : Nat
  sampleTime : Nat
deriving DecidableEq

/-- stc_port_init_t, restricted to the fields this code reads or writes. -/
structure StcPortInit where
  enPinMode : PinModeHw
  enPullUp : FuncState
deriving DecidableEq

/-- Observable events: vendor SDK calls, debug assertion failures, debug
prints and yield() calls, in program order. -/
inductive Effect
| pwcFcg3PeriphClockCmd (clock_id : Nat) (f : FuncState)
| pwcFcg0PeriphClockCmd (clock_id : Nat) (f : FuncState)
| adcInit (register_base : Nat) (cfg : StcAdcInit)
| adcTriggerSrcCmd (register_base sequence : Nat) (f : FuncState)
| dmaInitChannel (register_base channel : Nat) (cfg : StcDmaConfig)
| dmaCmd (register_base : Nat) (f : FuncState)
| dmaChannelCmd (register_base channel : Nat) (f : FuncState)
| dmaClearIrqFlag (register_base channel : Nat) (irq : DmaIrqSel)
| dmaGetIrqFlag (register_base channel : Nat) (irq : DmaIrqSel)
| dmaSetTriggerSrc (register_base channel event_source : Nat)
| adcAddAdcChannel (register_base : Nat) (cfg : StcAdcChCfg)
| adcDelAdcChannel (register_base : Nat) (mask : Nat)
| adcStartConvert (register_base : Nat)
| gpioSetFunc (pin func : Nat) (subFunc : FuncState)
| gpioInit (pin : Nat) (cfg : StcPortInit)
| gpioSetBits (pin : Nat)
| gpioResetBits (pin : Nat)
| gpioGetBit (pin : Nat)
| assertFailure (msg : String)
| debugPrintf
| yieldCall
deriving DecidableEq

/-- adc_device_t.adc: the adc_register_config sub-struct. -/
structure AdcPeriphConfig where
  register_base : Nat
  clock_id : Nat
  sequence : Nat
  channel_count : Nat
deriving DecidableEq

/-- adc_device_t.init_params. -/
structure AdcInitParams where
  resolution : Nat
  data_alignment : Nat
  scan_mode : Nat
deriving DecidableEq

/-- adc_device_t.dma: the dma_register_config sub-struct. -/
structure DmaPeriphConfig where
  register_base : Nat
  clock_id : Nat
  channel : Nat
  event_source : Nat
deriving DecidableEq

/-- adc_device_t.state: the mutable driver state.  conversion_results is the
uint16_t result buffer written by DMA hardware, indexed by channel id;
results_addr is its machine address (used only in the DMA configuration). -/
structure AdcDeviceState where
  initialized : Bool
  conversion_results : Nat → Nat
  results_addr : Nat

/-- adc_device_t. -/
structure AdcDevice where
  adc : AdcPeriphConfig
  init_params : AdcInitParams
  dma : DmaPeriphConfig
  state : AdcDeviceState

/-- MCU peripheral state observable by this code: DMA IRQ flags (indexed by
DMA unit base, channel, IRQ selector), GPIO pin configurations, GPIO input
bits and GPIO output latches. -/
structure McuState where
  dmaFlags : Nat → Nat → DmaIrqSel → FlagStatus
  gpioConfig : Nat → StcPortInit
  gpioInputBits : Nat → Bool
  gpioOutputBits : Nat → Bool

/-- CORE_ASSERT(cond, msg): records a failure effect when cond is false
(debug builds abort there; release builds compile the check out). -/
def CORE_ASSERT (cond : Bool) (msg : String) : List Effect :=
  if cond then [] else [Effect.assertFailure msg]

def msg_invalid_channel_id : String := "invalid channel id"

def msg_device_not_initialized : String := "ADC device not initialized"

def msg_sample_time_positive : String := "adc channel sample_time must be > 0"

def msg_pinMode_invalid_mode : String :=
  "pinMode: invalid pin mode. Must be INPUT, INPUT_PULLUP, INPUT_ANALOG or OUTPUT"

def msg_invalid_gpio_pin : String := "invalid GPIO pin"

/-- ASSERT_CHANNEL_ID(device, channel): channel >= 0 holds by type. -/
def ASSERT_CHANNEL_ID (device : AdcDevice) (channel : Nat) : List Effect :=
  CORE_ASSERT (decide (channel < device.adc.channel_count)) msg_invalid_channel_id

/-- ASSERT_INITIALIZED(device, function_name); the function name only feeds
the debug message, which the model keeps generic. -/
def ASSERT_INITIALIZED (device : AdcDevice) : List Effect :=
  CORE_ASSERT device.state.initialized msg_device_not_initialized

/-- PWC_FCG0_PERIPH_AOS clock gate bit (value irrelevant to the claims). -/
def PWC_FCG0_PERIPH_AOS : Nat := 131072

/-- DMA_ClearIrqFlag: resets one DMA IRQ flag. -/
def DMA_ClearIrqFlag (mcu : McuState) (base ch : Nat) (irq : DmaIrqSel) :
    McuState × List Effect :=
  ({ mcu with
      dmaFlags := fun b c i =>
        if b = base ∧ c = ch ∧ i = irq then FlagStatus.FlagReset else mcu.dmaFlags b c i },
   [Effect.dmaClearIrqFlag base ch irq])

/-- DMA_GetIrqFlag: reads one DMA IRQ flag. -/
def DMA_GetIrqFlag (mcu : McuState) (base ch : Nat) (irq : DmaIrqSel) :
    FlagStatus × List Effect :=
  (mcu.dmaFlags base ch irq, [Effect.dmaGetIrqFlag base ch irq])

/-- adc_adc_init: ADC peripheral init (clock enable, ADC_Init with the
device init parameters, software-trigger-only).  Pure effect sequence. -/
def adc_adc_init (device : AdcDevice) : List Effect :=
  [Effect.pwcFcg3PeriphClockCmd device.adc.clock_id FuncState.Enable,
   Effect.adcInit device.adc.register_base
     { enResolution := device.init_params.resolution
       enDataAlign := device.init_params.data_alignment
       enAutoClear := AdcClren.AdcClren_Enable
       enScanMode := device.init_params.scan_mode
       enRschsel := AdcRschsel.AdcRschsel_Restart },
   Effect.adcTriggerSrcCmd device.adc.register_base device.adc.sequence FuncState.Disable]

/-- adc_dma_init: DMA transfer init for capturing conversion results. -/
def adc_dma_init (device : AdcDevice) (mcu : McuState) : McuState × List Effect :=
  let dma_device : StcDmaConfig :=
    { u16BlockSize := device.adc.channel_count
      u16TransferCnt := 0
      u32SrcAddr := DmaAddress.adcDataRegister0 device.adc.register_base
      u32DesAddr := DmaAddress.ramBuffer device.state.results_addr
      u16SrcRptSize := device.adc.channel_count
      u16DesRptSize := device.adc.channel_count
      stcDmaChCfg :=
        { enSrcInc := AddressMode.AddressIncrease
          enDesInc := AddressMode.AddressIncrease
          enSrcRptEn := FuncState.Enable
          enDesRptEn := FuncState.Enable
          enSrcNseqEn := FuncState.Disable
          enDesNseqEn := FuncState.Disable
          enTrnWidth := DmaTrnWidth.Dma16Bit
          enLlpEn := FuncState.Disable
          enIntEn := FuncState.Disable } }
  let e0 : List Effect :=
    [Effect.pwcFcg0PeriphClockCmd device.dma.clock_id FuncState.Enable,
     Effect.dmaInitChannel device.dma.register_base device.dma.channel dma_device,
     Effect.dmaCmd device.dma.register_base FuncState.Enable,
     Effect.dmaChannelCmd device.dma.register_base device.dma.channel FuncState.Enable]
  let r1 := DMA_ClearIrqFlag mcu device.dma.register_base device.dma.channel
    DmaIrqSel.TrnCpltIrq
  let r2 := DMA_ClearIrqFlag r1.1 device.dma.register_base device.dma.channel
    DmaIrqSel.BlkTrnCpltIrq
  (r2.1,
   e0 ++ r1.2 ++ r2.2 ++
   [Effect.pwcFcg0PeriphClockCmd PWC_FCG0_PERIPH_AOS FuncState.Enable,
    Effect.dmaSetTriggerSrc device.dma.register_base device.dma.channel
      device.dma.event_source])

/-- adc_device_init: no-op when already initialized, else ADC init followed
by DMA init, then sets the initialized flag. -/
def adc_device_init (device : AdcDevice) (mcu : McuState) :
    AdcDevice × McuState × List Effect :=
  if device.state.initialized then (device, mcu, [])
  else
    let e1 := adc_adc_init device
    let r2 := adc_dma_init device mcu
    ({ device with state := { device.state with initialized := true } },
     r2.1, e1 ++ r2.2 ++ [Effect.debugPrintf])

/-- adc_channel_to_mask: asserts the channel id and returns 1 << channel
(uint32_t arithmetic). -/
def adc_channel_to_mask (device : AdcDevice) (channel : Nat) : Nat × List Effect :=
  ((1 <<< channel) % 2 ^ 32, ASSERT_CHANNEL_ID device channel)

/-- adc_enable_channel: asserts initialization, channel id and sample time,
then registers the channel with ADC_AddAdcChannel. -/
def adc_enable_channel (device : AdcDevice) (adc_channel sample_time : Nat)
    (mcu : McuState) : McuState × List Effect :=
  let a1 := ASSERT_INITIALIZED device
  let a2 := ASSERT_CHANNEL_ID device adc_channel
  let a3 := CORE_ASSERT (decide (sample_time > 0)) msg_sample_time_positive
  let m := adc_channel_to_mask device adc_channel
  (mcu,
   a1 ++ a2 ++ a3 ++ [Effect.debugPrintf] ++ m.2 ++
   [Effect.adcAddAdcChannel device.adc.register_base
      { u32Channel := m.1
        u8Sequence := device.adc.sequence
        sampleTime := sample_time }])

/-- adc_disable_channel: returns early when the device is not initialized,
else asserts the channel id and calls ADC_DelAdcChannel. -/
def adc_disable_channel (device : AdcDevice) (adc_channel : Nat) (mcu : McuState) :
    McuState × List Effect :=
  if !device.state.initialized then (mcu, [])
  else
    let a := ASSERT_CHANNEL_ID device adc_channel
    let m := adc_channel_to_mask device adc_channel
    (mcu,
     a ++ [Effect.debugPrintf] ++ m.2 ++
     [Effect.adcDelAdcChannel device.adc.register_base m.1])

/-- adc_start_conversion: clears the block-transfer-complete flag and starts
software-triggered conversion. -/
def adc_start_conversion (device : AdcDevice) (mcu : McuState) :
    McuState × List Effect :=
  let a := ASSERT_INITIALIZED device
  let r := DMA_ClearIrqFlag mcu device.dma.register_base device.dma.channel
    DmaIrqSel.BlkTrnCpltIrq
  (r.1, a ++ r.2 ++ [Effect.adcStartConvert device.adc.register_base])

/-- adc_is_conversion_completed: polls the DMA block-transfer-complete flag;
the MCU state is passed through unchanged. -/
def adc_is_conversion_completed (device : AdcDevice) (mcu : McuState) :
    Bool × McuState × List Effect :=
  let a := ASSERT_INITIALIZED device
  let r := DMA_GetIrqFlag mcu device.dma.register_base device.dma.channel
    DmaIrqSel.BlkTrnCpltIrq
  (decide (r.1 = FlagStatus.FlagSet), mcu, a ++ r.2)

/-- The while loop of adc_await_conversion_completed.  DMA hardware sets the
flag asynchronously, so the environment supplies the MCU state seen by each
successive poll (mcuAt k is the state at the k-th poll); fuel bounds the
number of polls.  Returns the index of the succeeding poll together with the
accumulated effect trace, or none when fuel runs out. -/
def adc_await_loop (device : AdcDevice) (mcuAt : Nat → McuState) :
    Nat → Nat → Option (Nat × List Effect)
| 0, _ => none
| fuel + 1, k =>
  let r := adc_is_conversion_completed device (mcuAt k)
  if r.1 then some (k, r.2.2)
  else
    match adc_await_loop device mcuAt fuel (k + 1) with
    | none => none
    | some (j, es) => some (j, r.2.2 ++ [Effect.yieldCall] ++ es)

/-- adc_await_conversion_completed: asserts initialization, then busy-waits
(yield() between polls) until adc_is_conversion_completed returns true. -/
def adc_await_conversion_completed (device : AdcDevice) (mcuAt : Nat → McuState)
    (fuel : Nat) : Option (Nat × List Effect) :=
  match adc_await_loop device mcuAt fuel 0 with
  | none => none
  | some (j, es) => some (j, ASSERT_INITIALIZED device ++ es)

/-- adc_conversion_read_result: asserts, clears the block-transfer-complete
flag, then reads the DMA-captured result from the device state buffer. -/
def adc_conversion_read_result (device : AdcDevice) (adc_channel : Nat)
    (mcu : McuState) : Nat × McuState × List Effect :=
  let a1 := ASSERT_INITIALIZED device
  let a2 := ASSERT_CHANNEL_ID device adc_channel
  let r := DMA_ClearIrqFlag mcu device.dma.register_base device.dma.channel
    DmaIrqSel.BlkTrnCpltIrq
  (device.state.conversion_results adc_channel, r.1, a1 ++ a2 ++ r.2)

/-! wiring_digital.cpp.  The Arduino mode/level constants come from
wiring_constants.h, which is not part of this excerpt; they are modelled as
pairwise-distinct numerals (only their distinctness matters to the code,
which dispatches on equality). -/

/-- Modelled from the spec: Arduino pin mode INPUT (wiring_constants.h is
missing from the excerpt; the public surface is the conventional Arduino
pin API). -/
def INPUT : Nat := 0

/-- Modelled from the spec: Arduino pin mode OUTPUT. -/
def OUTPUT : Nat := 1

/-- Modelled from the spec: Arduino pin mode INPUT_PULLUP. -/
def INPUT_PULLUP : Nat := 2

/-- Modelled from the spec: Arduino pin mode INPUT_ANALOG. -/
def INPUT_ANALOG : Nat := 3

/-- Modelled from the spec: Arduino pin mode INPUT_FLOATING, returned by
getPinMode for out-of-range pins. -/
def INPUT_FLOATING : Nat := 4

/-- Modelled from the spec: Arduino logic level HIGH. -/
def HIGH : Nat := 1

/-- Modelled from the spec: Arduino logic level LOW. -/
def LOW : Nat := 0

/-- Modelled from the spec: ADC_PIN_INVALID sentinel for PIN_MAP entries
without an ADC channel (adc.h is missing from the excerpt). -/
def ADC_PIN_INVALID : Nat := 255

/-- Modelled from the spec: default sample time used when pinMode calls
adc_enable_channel with the default argument from adc.h (missing from the
excerpt); the exact positive value is irrelevant to the claims. -/
def ADC_DEFAULT_SAMPLE_TIME : Nat := 50

/-- Func_Gpio of the vendor SDK (en_port_func_t). -/
def Func_Gpio : Nat := 0

/-- A PIN_MAP entry, restricted to the fields wiring_digital.cpp reads:
the ADC device pointer (none models NULL, some i an index into the device
store) and the ADC channel id. -/
structure PinInfo where
  adc_device : Option Nat
  adc_channel : Nat

/-- Board description: BOARD_NR_GPIO_PINS and the PIN_MAP table. -/
structure Board where
  nr_gpio_pins : Nat
  pin_map : Nat → PinInfo

/-- Modelled from the spec: ASSERT_GPIO_PIN_VALID comes from
drivers/gpio/gpio.h, missing from the excerpt; per the spec it is a
debug-build assertion checking the pin id against BOARD_NR_GPIO_PINS. -/
def ASSERT_GPIO_PIN_VALID (board : Board) (pin : Nat) : List Effect :=
  CORE_ASSERT (decide (pin < board.nr_gpio_pins)) msg_invalid_gpio_pin

/-- GPIO_SetFunc: vendor call, no state this code later observes. -/
def GPIO_SetFunc (mcu : McuState) (pin func : Nat) (f : FuncState) :
    McuState × List Effect :=
  (mcu, [Effect.gpioSetFunc pin func f])

/-- GPIO_Init: writes the pin configuration. -/
def GPIO_Init (mcu : McuState) (pin : Nat) (cfg : StcPortInit) :
    McuState × List Effect :=
  ({ mcu with gpioConfig := fun p => if p = pin then cfg else mcu.gpioConfig p },
   [Effect.gpioInit pin cfg])

/-- GPIO_GetConfig: reads back the pin configuration. -/
def GPIO_GetConfig (mcu : McuState) (pin : Nat) : StcPortInit :=
  mcu.gpioConfig pin

/-- GPIO_SetBits: drives the output latch high. -/
def GPIO_SetBits (mcu : McuState) (pin : Nat) : McuState × List Effect :=
  ({ mcu with gpioOutputBits := fun p => if p = pin then true else mcu.gpioOutputBits p },
   [Effect.gpioSetBits pin])

/-- GPIO_ResetBits: drives the output latch low. -/
def GPIO_ResetBits (mcu : McuState) (pin : Nat) : McuState × List Effect :=
  ({ mcu with gpioOutputBits := fun p => if p = pin then false else mcu.gpioOutputBits p },
   [Effect.gpioResetBits pin])

/-- GPIO_GetBit: reads the pin input bit. -/
def GPIO_GetBit (mcu : McuState) (pin : Nat) : Bool × List Effect :=
  (mcu.gpioInputBits pin, [Effect.gpioGetBit pin])

/-- MEM_ZERO_STRUCT applied to stc_port_init_t: all fields zero, i.e.
Pin_Mode_In (enum value 0) and pull-up Disable. -/
def zeroPortInit : StcPortInit :=
  { enPinMode := PinModeHw.Pin_Mode_In, enPullUp := FuncState.Disable }

/-- The switch(dwMode) of pinMode: the pin configuration built for each
recognised mode, none for the default (assert-and-return) branch. -/
def pinModeSwitch (dwMode : Nat) : Option StcPortInit :=
  if dwMode = INPUT then
    some { zeroPortInit with enPinMode := PinModeHw.Pin_Mode_In }
  else if dwMode = INPUT_PULLUP then
    some { zeroPortInit with enPinMode := PinModeHw.Pin_Mode_In, enPullUp := FuncState.Enable }
  else if dwMode = INPUT_ANALOG then
    some { zeroPortInit with enPinMode := PinModeHw.Pin_Mode_Ana }
  else if dwMode = OUTPUT then
    some { zeroPortInit with enPinMode := PinModeHw.Pin_Mode_Out }
  else none

/-- The ADC block of pinMode: when PIN_MAP gives the pin a device and a
valid channel, INPUT_ANALOG initializes the device (index devId in the
device store) and enables the channel with the default sample time, any
other mode disables the channel.  Returns the updated device store, MCU
state and effects. -/
def pinModeAdcBlock (devices : Nat → AdcDevice) (mcu : McuState)
    (info : PinInfo) (dwMode : Nat) :
    (Nat → AdcDevice) × McuState × List Effect :=
  match info.adc_device with
  | none => (devices, mcu, [])
  | some devId =>
    if info.adc_channel ≠ ADC_PIN_INVALID then
      if dwMode = INPUT_ANALOG then
        let rI := adc_device_init (devices devId) mcu
        let rE := adc_enable_channel rI.1 info.adc_channel ADC_DEFAULT_SAMPLE_TIME rI.2.1
        (fun i => if i = devId then rI.1 else devices i, rE.1, rI.2.2 ++ rE.2)
      else
        let rD := adc_disable_channel (devices devId) info.adc_channel mcu
        (devices, rD.1, rD.2)
    else (devices, mcu, [])

/-- pinMode: bounds check with early return, ADC block, then the mode
switch; the default branch asserts and returns before GPIO_SetFunc and
GPIO_Init. -/
def pinMode (board : Board) (devices : Nat → AdcDevice) (mcu : McuState)
    (dwPin dwMode : Nat) : (Nat → AdcDevice) × McuState × List Effect :=
  let a0 := ASSERT_GPIO_PIN_VALID board dwPin
  if board.nr_gpio_pins ≤ dwPin then (devices, mcu, a0)
  else
    let rA := pinModeAdcBlock devices mcu (board.pin_map dwPin) dwMode
    match pinModeSwitch dwMode with
    | none =>
      (rA.1, rA.2.1, a0 ++ rA.2.2 ++ [Effect.assertFailure msg_pinMode_invalid_mode])
    | some pinConf =>
      let rF := GPIO_SetFunc rA.2.1 dwPin Func_Gpio FuncState.Enable
      let rG := GPIO_Init rF.1 dwPin pinConf
      (rA.1, rG.1, a0 ++ rA.2.2 ++ rF.2 ++ rG.2)

/-- getPinMode: bounds check returning INPUT_FLOATING, then decodes the
configuration read back by GPIO_GetConfig. -/
def getPinMode (board : Board) (mcu : McuState) (dwPin : Nat) :
    Nat × List Effect :=
  let a0 := ASSERT_GPIO_PIN_VALID board dwPin
  if board.nr_gpio_pins ≤ dwPin then (INPUT_FLOATING, a0)
  else
    let pinConf := GPIO_GetConfig mcu dwPin
    match pinConf.enPinMode with
    | PinModeHw.Pin_Mode_Out => (OUTPUT, a0)
    | PinModeHw.Pin_Mode_In =>
      (if pinConf.enPullUp = FuncState.Enable then INPUT_PULLUP else INPUT, a0)
    | PinModeHw.Pin_Mode_Ana => (INPUT_ANALOG, a0)

/-- digitalWrite: bounds check with early return, then GPIO_SetBits for
HIGH and GPIO_ResetBits for any other value. -/
def digitalWrite (board : Board) (mcu : McuState) (dwPin dwVal : Nat) :
    McuState × List Effect :=
  let a0 := ASSERT_GPIO_PIN_VALID board dwPin
  if board.nr_gpio_pins ≤ dwPin then (mcu, a0)
  else if dwVal = HIGH then
    let r := GPIO_SetBits mcu dwPin
    (r.1, a0 ++ r.2)
  else
    let r := GPIO_ResetBits mcu dwPin
    (r.1, a0 ++ r.2)

/-- digitalRead: bounds check returning LOW, else HIGH or LOW from
GPIO_GetBit. -/
def digitalRead (board : Board) (mcu : McuState) (ulPin : Nat) :
    Nat × List Effect :=
  let a0 := ASSERT_GPIO_PIN_VALID board ulPin
  if board.nr_gpio_pins ≤ ulPin then (LOW, a0)
  else
    let r := GPIO_GetBit mcu ulPin
    (if r.1 then HIGH else LOW, a0 ++ r.2)

/-! Concrete fixtures used to evaluate the theorems on explicit inputs. -/

/-- A reset MCU: all DMA flags cleared, GPIO zeroed. -/
def mcu0 : McuState :=
  { dmaFlags := fun _ _ _ => FlagStatus.FlagReset
    gpioConfig := fun _ => zeroPortInit
    gpioInputBits := fun _ => false
    gpioOutputBits := fun _ => false }

/-- An MCU in which every DMA IRQ flag reads as set. -/
def mcuSet : McuState :=
  { mcu0 with dmaFlags := fun _ _ _ => FlagStatus.FlagSet }

/-- A concrete, not-yet-initialized ADC device. -/
def dev0 : AdcDevice :=
  { adc := { register_base := 1, clock_id := 10, sequence := 0, channel_count := 16 }
    init_params := { resolution := 12, data_alignment := 0, scan_mode := 0 }
    dma := { register_base := 7, clock_id := 20, channel := 3, event_source := 99 }
    state :=
      { initialized := false
        conversion_results := fun c => 100 + c
        results_addr := 4096 } }

/-- dev0 with the initialized flag already set. -/
def dev0i : AdcDevice :=
  { dev0 with state := { dev0.state with initialized := true } }

/-- A device store mapping every index to dev0. -/
def devs0 : Nat → AdcDevice := fun _ => dev0

/-- A device store mapping every index to dev0i. -/
def devs0i : Nat → AdcDevice := fun _ => dev0i

/-- A concrete board: 8 GPIO pins, pin 2 mapped to ADC device 0 channel 5,
all other pins without an ADC mapping. -/
def board0 : Board :=
  { nr_gpio_pins := 8
    pin_map := fun p =>
      if p = 2 then { adc_device := some 0, adc_channel := 5 }
      else { adc_device := none, adc_channel := ADC_PIN_INVALID } }

/-- Poll environment for the await loop: flag still clear at the first
poll, set from the second poll on. -/
def mcuAtW : Nat → McuState := fun k => if k = 0 then mcu0 else mcuSet

/-! Theorems. -/

/-- Claim C3: for every initialized ADC device, adc_is_conversion_completed
returns true iff the BlkTrnCpltIrq flag of the configured DMA unit and
channel is set, leaves the MCU state unchanged, and its only effect is the
flag read: a pure poll. -/
theorem claim_C3 (device : AdcDevice) (mcu : McuState)
    (h : device.state.initialized = true) :
    ((adc_is_conversion_completed device mcu).1 = true ↔
      mcu.dmaFlags device.dma.register_base device.dma.channel
        DmaIrqSel.BlkTrnCpltIrq = FlagStatus.FlagSet) ∧
    (adc_is_conversion_completed device mcu).2.1 = mcu ∧
    (adc_is_conversion_completed device mcu).2.2 =
      [Effect.dmaGetIrqFlag device.dma.register_base device.dma.channel
        DmaIrqSel.BlkTrnCpltIrq] := by
  simp [adc_is_conversion_completed, DMA_GetIrqFlag, ASSERT_INITIALIZED, CORE_ASSERT, h]

/-- Witness for C3 at the concrete device dev0i on mcuSet. -/
theorem claim_C3_witness :
    dev0i.state.initialized = true ∧
    ((adc_is_conversion_completed dev0i mcuSet).1 = true ↔
      mcuSet.dmaFlags dev0i.dma.register_base dev0i.dma.channel
        DmaIrqSel.BlkTrnCpltIrq = FlagStatus.FlagSet) :=
  ⟨rfl, (claim_C3 dev0i mcuSet rfl).1⟩

/-- Claim C4: for an initialized device and a channel id below
channel_count, adc_conversion_read_result returns the value stored in
state.conversion_results at that channel, clears the BlkTrnCpltIrq flag of
the configured DMA unit and channel (its only effect, leaving every other
DMA flag and the GPIO state untouched); the device, and hence the result
buffer, is not modified. -/
theorem claim_C4 (device : AdcDevice) (mcu : McuState) (adc_channel : Nat)
    (h1 : device.state.initialized = true)
    (h2 : adc_channel < device.adc.channel_count) :
    (adc_conversion_read_result device adc_channel mcu).1 =
      device.state.conversion_results adc_channel ∧
    (adc_conversion_read_result device adc_channel mcu).2.1.dmaFlags
      device.dma.register_base device.dma.channel DmaIrqSel.BlkTrnCpltIrq =
      FlagStatus.FlagReset ∧
    (∀ b c i, ¬(b = device.dma.register_base ∧ c = device.dma.channel ∧
        i = DmaIrqSel.BlkTrnCpltIrq) →
      (adc_conversion_read_result device adc_channel mcu).2.1.dmaFlags b c i =
        mcu.dmaFlags b c i) ∧
    (adc_conversion_read_result device adc_channel mcu).2.1.gpioConfig =
      mcu.gpioConfig ∧
    (adc_conversion_read_result device adc_channel mcu).2.2 =
      [Effect.dmaClearIrqFlag device.dma.register_base device.dma.channel
        DmaIrqSel.BlkTrnCpltIrq] := by
  refine ⟨rfl, ?_, ?_, rfl, ?_⟩
  · simp [adc_conversion_read_result, DMA_ClearIrqFlag]
  · intro b c i hne
    simp only [adc_conversion_read_result, DMA_ClearIrqFlag]
    simp [hne]
  · simp [adc_conversion_read_result, DMA_ClearIrqFlag, ASSERT_INITIALIZED,
      ASSERT_CHANNEL_ID, CORE_ASSERT, h1, h2]

/-- Witness for C4 at dev0i, channel 5, on mcuSet. -/
theorem claim_C4_witness :
    dev0i.state.initialized = true ∧ 5 < dev0i.adc.channel_count ∧
    (adc_conversion_read_result dev0i 5 mcuSet).1 =
      dev0i.state.conversion_results 5 ∧
    (adc_conversion_read_result dev0i 5 mcuSet).2.1.dmaFlags
      dev0i.dma.register_base dev0i.dma.channel DmaIrqSel.BlkTrnCpltIrq =
      FlagStatus.FlagReset :=
  ⟨rfl, by decide,
    (claim_C4 dev0i mcuSet 5 rfl (by decide)).1,
    (claim_C4 dev0i mcuSet 5 rfl (by decide)).2.1⟩

/-- Claim C7: under the preconditions (initialized device, channel id below
channel_count, positive sample time) no assertion in adc_enable_channel or
in adc_channel_to_mask fires, and ADC_AddAdcChannel is called exactly once,
with channel mask 1 << channel (uint32), the device sequence and the given
sample time. -/
theorem claim_C7 (device : AdcDevice) (mcu : McuState)
    (adc_channel sample_time : Nat)
    (h1 : device.state.initialized = true)
    (h2 : adc_channel < device.adc.channel_count)
    (h3 : 0 < sample_time) :
    (∀ msg, Effect.assertFailure msg ∉
      (adc_enable_channel device adc_channel sample_time mcu).2) ∧
    (adc_enable_channel device adc_channel sample_time mcu).2.count
      (Effect.adcAddAdcChannel device.adc.register_base
        { u32Channel := (1 <<< adc_channel) % 2 ^ 32
          u8Sequence := device.adc.sequence
          sampleTime := sample_time }) = 1 := by
  constructor
  · intro msg
    simp [adc_enable_channel, adc_channel_to_mask, ASSERT_INITIALIZED,
      ASSERT_CHANNEL_ID, CORE_ASSERT, h1, h2, h3]
  · simp [adc_enable_channel, adc_channel_to_mask, ASSERT_INITIALIZED,
      ASSERT_CHANNEL_ID, CORE_ASSERT, h1, h2, h3, List.count_cons]

/-- Witness for C7 at dev0i, channel 5, sample time 50. -/
theorem claim_C7_witness :
    dev0i.state.initialized = true ∧ 5 < dev0i.adc.channel_count ∧ 0 < 50 ∧
    (adc_enable_channel dev0i 5 50 mcu0).2.count
      (Effect.adcAddAdcChannel dev0i.adc.register_base
        { u32Channel := (1 <<< 5) % 2 ^ 32
          u8Sequence := dev0i.adc.sequence
          sampleTime := 50 }) = 1 :=
  ⟨rfl, by decide, by decide,
    (claim_C7 dev0i mcu0 5 50 rfl (by decide) (by decide)).2⟩

/-- Claim C8: adc_device_init is idempotent.  When the device is already
initialized it returns immediately with no effects and no state change;
otherwise it performs the ADC init effects followed by the DMA init effects,
sets the initialized flag while leaving every other device field unchanged,
and a second call on the result is a no-op. -/
theorem claim_C8 (device : AdcDevice) (mcu : McuState) :
    (device.state.initialized = true →
      adc_device_init device mcu = (device, mcu, [])) ∧
    (device.state.initialized = false →
      (adc_device_init device mcu).1.state.initialized = true ∧
      (adc_device_init device mcu).1.adc = device.adc ∧
      (adc_device_init device mcu).1.dma = device.dma ∧
      (adc_device_init device mcu).1.init_params = device.init_params ∧
      (adc_device_init device mcu).1.state.conversion_results =
        device.state.conversion_results ∧
      (adc_device_init device mcu).2.2 =
        adc_adc_init device ++ (adc_dma_init device mcu).2 ++
          [Effect.debugPrintf] ∧
      adc_device_init (adc_device_init device mcu).1
          (adc_device_init device mcu).2.1 =
        ((adc_device_init device mcu).1, (adc_device_init device mcu).2.1,
          [])) := by
  constructor
  · intro h
    simp [adc_device_init, h]
  · intro h
    simp [adc_device_init, h]

/-- Witness for C8 at the uninitialized dev0 (and, through the theorem
itself, the no-op second call). -/
theorem claim_C8_witness :
    dev0.state.initialized = false ∧
    ((adc_device_init dev0 mcu0).1.state.initialized = true ∧
      adc_device_init (adc_device_init dev0 mcu0).1
          (adc_device_init dev0 mcu0).2.1 =
        ((adc_device_init dev0 mcu0).1, (adc_device_init dev0 mcu0).2.1,
          [])) :=
  ⟨rfl,
    ((claim_C8 dev0 mcu0).2 rfl).1,
    ((claim_C8 dev0 mcu0).2 rfl).2.2.2.2.2.2⟩

/-- A single poll contributes no yield() call to the trace. -/
theorem poll_count_yield (device : AdcDevice) (mcu : McuState) :
    ((adc_is_conversion_completed device mcu).2.2).count Effect.yieldCall = 0 := by
  by_cases h : device.state.initialized = true <;>
    simp [adc_is_conversion_completed, DMA_GetIrqFlag, ASSERT_INITIALIZED, CORE_ASSERT, h]

/-- For an initialized device a poll contributes no assertion failure. -/
theorem poll_no_assert (device : AdcDevice) (mcu : McuState) (msg : String)
    (h : device.state.initialized = true) :
    Effect.assertFailure msg ∉ (adc_is_conversion_completed device mcu).2.2 := by
  simp [adc_is_conversion_completed, DMA_GetIrqFlag, ASSERT_INITIALIZED, CORE_ASSERT, h]

/-- If the flag is observed set at some poll within fuel, the await loop
started at k returns at the first succeeding poll j, with one yield()
recorded for every unset poll before j and (for an initialized device) no
assertion failures. -/
theorem adc_await_loop_spec (device : AdcDevice) (mcuAt : Nat → McuState) :
    ∀ fuel k d, d < fuel →
    (adc_is_conversion_completed device (mcuAt (k + d))).1 = true →
    ∃ j es, adc_await_loop device mcuAt fuel k = some (j, es) ∧
      k ≤ j ∧
      (adc_is_conversion_completed device (mcuAt j)).1 = true ∧
      (∀ i, k ≤ i → i < j →
        (adc_is_conversion_completed device (mcuAt i)).1 = false) ∧
      es.count Effect.yieldCall = j - k ∧
      (device.state.initialized = true →
        ∀ msg, Effect.assertFailure msg ∉ es) := by
  intro fuel
  induction fuel with
  | zero =>
    intro k d hd
    exact absurd hd (Nat.not_lt_zero d)
  | succ fuel ih =>
    intro k d hd hdone
    by_cases hk : (adc_is_conversion_completed device (mcuAt k)).1 = true
    · refine ⟨k, (adc_is_conversion_completed device (mcuAt k)).2.2, ?_,
        Nat.le_refl k, hk, ?_, ?_, ?_⟩
      · simp [adc_await_loop, hk]
      · intro i h1 h2
        exact absurd (Nat.lt_of_le_of_lt h1 h2) (Nat.lt_irrefl k)
      · simpa [Nat.sub_self] using poll_count_yield device (mcuAt k)
      · intro hinit msg
        exact poll_no_assert device (mcuAt k) msg hinit
    · have hd0 : d ≠ 0 := by
        intro h0
        rw [h0, Nat.add_zero] at hdone
        exact hk hdone
      obtain ⟨d', rfl⟩ := Nat.exists_eq_succ_of_ne_zero hd0
      have hdone' :
          (adc_is_conversion_completed device (mcuAt ((k + 1) + d'))).1 = true := by
        have : k + (d' + 1) = (k + 1) + d' := by omega
        rwa [this] at hdone
      obtain ⟨j, es, heq, hle, hj, hall, hcount, hassert⟩ :=
        ih (k + 1) d' (Nat.lt_of_succ_lt_succ hd) hdone'
      refine ⟨j,
        (adc_is_conversion_completed device (mcuAt k)).2.2 ++
          [Effect.yieldCall] ++ es, ?_, by omega, hj, ?_, ?_, ?_⟩
      · simp [adc_await_loop, hk, heq]
      · intro i h1 h2
        rcases Nat.eq_or_lt_of_le h1 with h | h
        · rw [← h]
          exact Bool.eq_false_iff.mpr hk
        · exact hall i h h2
      · have hp := poll_count_yield device (mcuAt k)
        have h1 : [Effect.yieldCall].count Effect.yieldCall = 1 := by decide
        rw [List.count_append, List.count_append, hp, h1, hcount]
        omega
      · intro hinit msg
        have h1 := poll_no_assert device (mcuAt k) msg hinit
        have h2 := hassert hinit msg
        simp only [List.mem_append, List.mem_singleton]
        rintro ((h | h) | h)
        · exact h1 h
        · exact Effect.noConfusion h
        · exact h2 h

/-- Every successful return of the await loop happens at a poll where the
flag reads as set. -/
theorem adc_await_loop_done (device : AdcDevice) (mcuAt : Nat → McuState) :
    ∀ fuel k j es, adc_await_loop device mcuAt fuel k = some (j, es) →
      (adc_is_conversion_completed device (mcuAt j)).1 = true := by
  intro fuel
  induction fuel with
  | zero =>
    intro k j es h
    exact Option.noConfusion h
  | succ fuel ih =>
    intro k j es h
    by_cases hk : (adc_is_conversion_completed device (mcuAt k)).1 = true
    · simp [adc_await_loop, hk] at h
      rw [← h.1]
      exact hk
    · simp only [adc_await_loop, Bool.eq_false_iff.mpr hk, Bool.false_eq_true,
        if_false] at h
      rcases hrec : adc_await_loop device mcuAt fuel (k + 1) with _ | ⟨j', es'⟩
      · rw [hrec] at h
        exact absurd h (by simp)
      · rw [hrec] at h
        simp at h
        rw [← h.1]
        exact ih (k + 1) j' es' hrec

/-- Claim C2: for an initialized device, if the block-transfer-complete flag
is observed set at some poll within fuel, adc_await_conversion_completed
returns at the first succeeding poll j, having recorded exactly one yield()
per unset poll before j (and no assertion failures); and no successful
return, for any fuel, happens at a poll where the flag reads unset. -/
theorem claim_C2 (device : AdcDevice) (mcuAt : Nat → McuState) (fuel n : Nat)
    (hinit : device.state.initialized = true)
    (hn : (adc_is_conversion_completed device (mcuAt n)).1 = true)
    (hfuel : n < fuel) :
    (∃ j es, adc_await_conversion_completed device mcuAt fuel = some (j, es) ∧
      (adc_is_conversion_completed device (mcuAt j)).1 = true ∧
      (∀ i, i < j → (adc_is_conversion_completed device (mcuAt i)).1 = false) ∧
      es.count Effect.yieldCall = j ∧
      (∀ msg, Effect.assertFailure msg ∉ es)) ∧
    (∀ fuel2 j es,
      adc_await_conversion_completed device mcuAt fuel2 = some (j, es) →
      (adc_is_conversion_completed device (mcuAt j)).1 = true) := by
  constructor
  · obtain ⟨j, es, heq, _, hj, hall, hcount, hassert⟩ :=
      adc_await_loop_spec device mcuAt fuel 0 n hfuel (by simpa using hn)
    refine ⟨j, ASSERT_INITIALIZED device ++ es, ?_, hj, ?_, ?_, ?_⟩
    · simp [adc_await_conversion_completed, heq]
    · intro i hi
      exact hall i (Nat.zero_le i) hi
    · simp [ASSERT_INITIALIZED, CORE_ASSERT, hinit, hcount]
    · intro msg
      simp only [ASSERT_INITIALIZED, CORE_ASSERT, hinit, if_true,
        List.nil_append]
      exact hassert hinit msg
  · intro fuel2 j es h
    rcases hrec : adc_await_loop device mcuAt fuel2 0 with _ | ⟨j', es'⟩
    · simp [adc_await_conversion_completed, hrec] at h
    · have := adc_await_loop_done device mcuAt fuel2 0 j' es' hrec
      simp [adc_await_conversion_completed, hrec] at h
      rw [← h.1]
      exact this

/-- Witness for C2: dev0i with the flag clear at poll 0 and set from poll 1
on; the loop returns at poll 1 after exactly one yield(). -/
theorem claim_C2_witness :
    dev0i.state.initialized = true ∧
    (adc_is_conversion_completed dev0i (mcuAtW 1)).1 = true ∧ 1 < 3 ∧
    (∃ j es,
      adc_await_conversion_completed dev0i mcuAtW 3 = some (j, es) ∧
      (adc_is_conversion_completed dev0i (mcuAtW j)).1 = true ∧
      (∀ i, i < j →
        (adc_is_conversion_completed dev0i (mcuAtW i)).1 = false) ∧
      es.count Effect.yieldCall = j ∧
      (∀ msg, Effect.assertFailure msg ∉ es)) :=
  ⟨rfl, by decide, by decide,
    (claim_C2 dev0i mcuAtW 3 1 rfl (by decide) (by decide)).1⟩

/-- adc_device_init leaves the GPIO configuration untouched. -/
theorem adc_device_init_gpioConfig (device : AdcDevice) (mcu : McuState) :
    (adc_device_init device mcu).2.1.gpioConfig = mcu.gpioConfig := by
  unfold adc_device_init
  split <;> rfl

/-- adc_device_init leaves the adc register configuration untouched. -/
theorem adc_device_init_adc_field (device : AdcDevice) (mcu : McuState) :
    (adc_device_init device mcu).1.adc = device.adc := by
  unfold adc_device_init
  split <;> rfl

/-- After adc_device_init the initialized flag is always set. -/
theorem adc_device_init_initialized (device : AdcDevice) (mcu : McuState) :
    (adc_device_init device mcu).1.state.initialized = true := by
  cases h : device.state.initialized <;> simp [adc_device_init, h]

/-- adc_enable_channel always reaches its ADC_AddAdcChannel call. -/
theorem adc_enable_channel_mem (device : AdcDevice) (mcu : McuState)
    (ch st : Nat) :
    Effect.adcAddAdcChannel device.adc.register_base
      { u32Channel := (1 <<< ch) % 2 ^ 32
        u8Sequence := device.adc.sequence
        sampleTime := st } ∈ (adc_enable_channel device ch st mcu).2 := by
  simp [adc_enable_channel, adc_channel_to_mask]

/-- adc_disable_channel on an initialized device reaches ADC_DelAdcChannel. -/
theorem adc_disable_channel_mem (device : AdcDevice) (mcu : McuState) (ch : Nat)
    (h : device.state.initialized = true) :
    Effect.adcDelAdcChannel device.adc.register_base ((1 <<< ch) % 2 ^ 32) ∈
      (adc_disable_channel device ch mcu).2 := by
  simp [adc_disable_channel, h, adc_channel_to_mask]

/-- The ADC block of pinMode never touches the GPIO configuration. -/
theorem pinModeAdcBlock_gpioConfig (devices : Nat → AdcDevice) (mcu : McuState)
    (info : PinInfo) (dwMode : Nat) :
    (pinModeAdcBlock devices mcu info dwMode).2.1.gpioConfig =
      mcu.gpioConfig := by
  cases hd : info.adc_device with
  | none => simp [pinModeAdcBlock, hd]
  | some devId =>
    simp only [pinModeAdcBlock, hd]
    split_ifs
    · simp [adc_enable_channel, adc_device_init_gpioConfig]
    · simp only [adc_disable_channel]
      split <;> rfl
    · rfl

/-- The ADC block of pinMode records no GPIO effect. -/
theorem pinModeAdcBlock_no_gpio (devices : Nat → AdcDevice) (mcu : McuState)
    (info : PinInfo) (dwMode : Nat) :
    (∀ p c, Effect.gpioInit p c ∉ (pinModeAdcBlock devices mcu info dwMode).2.2) ∧
    (∀ p f s,
      Effect.gpioSetFunc p f s ∉ (pinModeAdcBlock devices mcu info dwMode).2.2) := by
  cases hd : info.adc_device with
  | none => simp [pinModeAdcBlock, hd]
  | some devId =>
    constructor <;> intro p c <;>
      [skip; intro s] <;>
      simp only [pinModeAdcBlock, hd, adc_device_init, adc_enable_channel,
        adc_disable_channel, adc_adc_init, adc_dma_init, adc_channel_to_mask,
        ASSERT_INITIALIZED, ASSERT_CHANNEL_ID, CORE_ASSERT, DMA_ClearIrqFlag] <;>
      split_ifs <;> simp

/-- pinModeSwitch recognises exactly the four documented modes. -/
theorem pinModeSwitch_eq_none (mode : Nat) (h1 : mode ≠ INPUT)
    (h2 : mode ≠ INPUT_PULLUP) (h3 : mode ≠ INPUT_ANALOG)
    (h4 : mode ≠ OUTPUT) : pinModeSwitch mode = none := by
  simp [pinModeSwitch, h1, h2, h3, h4]

/-- Decomposition of pinMode on a recognised mode: the device store comes
from the ADC block, the pin configuration is written, and the trace is the
ADC block trace followed by GPIO_SetFunc and GPIO_Init. -/
theorem pinMode_gpio_part (board : Board) (devices : Nat → AdcDevice)
    (mcu : McuState) (pin mode : Nat) (cfg : StcPortInit)
    (hpin : pin < board.nr_gpio_pins)
    (hsw : pinModeSwitch mode = some cfg) :
    (pinMode board devices mcu pin mode).1 =
      (pinModeAdcBlock devices mcu (board.pin_map pin) mode).1 ∧
    (pinMode board devices mcu pin mode).2.1.gpioConfig pin = cfg ∧
    (pinMode board devices mcu pin mode).2.2 =
      ASSERT_GPIO_PIN_VALID board pin ++
        (pinModeAdcBlock devices mcu (board.pin_map pin) mode).2.2 ++
        [Effect.gpioSetFunc pin Func_Gpio FuncState.Enable,
         Effect.gpioInit pin cfg] := by
  have hle : ¬ board.nr_gpio_pins ≤ pin := Nat.not_le.mpr hpin
  refine ⟨?_, ?_, ?_⟩ <;> simp [pinMode, hle, hsw, GPIO_SetFunc, GPIO_Init]

/-- Decomposition of pinMode on an unrecognised mode: the ADC block still
runs, then the default branch asserts and returns before any GPIO call. -/
theorem pinMode_invalid_part (board : Board) (devices : Nat → AdcDevice)
    (mcu : McuState) (pin mode : Nat)
    (hpin : pin < board.nr_gpio_pins)
    (hsw : pinModeSwitch mode = none) :
    pinMode board devices mcu pin mode =
      ((pinModeAdcBlock devices mcu (board.pin_map pin) mode).1,
       (pinModeAdcBlock devices mcu (board.pin_map pin) mode).2.1,
       ASSERT_GPIO_PIN_VALID board pin ++
         (pinModeAdcBlock devices mcu (board.pin_map pin) mode).2.2 ++
         [Effect.assertFailure msg_pinMode_invalid_mode]) := by
  have hle : ¬ board.nr_gpio_pins ≤ pin := Nat.not_le.mpr hpin
  simp [pinMode, hle, hsw]

/-- Enable branch of the ADC block (mode INPUT_ANALOG on a mapped pin):
the device ends up initialized and the channel is registered with the
default sample time. -/
theorem pinModeAdcBlock_analog (devices : Nat → AdcDevice) (mcu : McuState)
    (info : PinInfo) (devId : Nat)
    (hdev : info.adc_device = some devId)
    (hch : info.adc_channel ≠ ADC_PIN_INVALID) :
    ((pinModeAdcBlock devices mcu info INPUT_ANALOG).1 devId).state.initialized =
      true ∧
    Effect.adcAddAdcChannel (devices devId).adc.register_base
      { u32Channel := (1 <<< info.adc_channel) % 2 ^ 32
        u8Sequence := (devices devId).adc.sequence
        sampleTime := ADC_DEFAULT_SAMPLE_TIME } ∈
      (pinModeAdcBlock devices mcu info INPUT_ANALOG).2.2 := by
  constructor
  · simp [pinModeAdcBlock, hdev, hch, adc_device_init_initialized]
  · have hmem := adc_enable_channel_mem (adc_device_init (devices devId) mcu).1
      (adc_device_init (devices devId) mcu).2.1 info.adc_channel
      ADC_DEFAULT_SAMPLE_TIME
    rw [adc_device_init_adc_field] at hmem
    simp only [pinModeAdcBlock, hdev]
    rw [if_pos hch]
    rw [if_pos trivial]
    exact List.mem_append_right _ hmem

/-- Disable branch of the ADC block (any non-INPUT_ANALOG mode on a mapped
pin with an initialized device). -/
theorem pinModeAdcBlock_nonAnalog (devices : Nat → AdcDevice) (mcu : McuState)
    (info : PinInfo) (devId dwMode : Nat)
    (hdev : info.adc_device = some devId)
    (hch : info.adc_channel ≠ ADC_PIN_INVALID)
    (hmode : dwMode ≠ INPUT_ANALOG)
    (hinit : (devices devId).state.initialized = true) :
    Effect.adcDelAdcChannel (devices devId).adc.register_base
      ((1 <<< info.adc_channel) % 2 ^ 32) ∈
      (pinModeAdcBlock devices mcu info dwMode).2.2 := by
  simp only [pinModeAdcBlock, hdev]
  rw [if_pos hch, if_neg hmode]
  exact adc_disable_channel_mem (devices devId) mcu info.adc_channel hinit

/-- Claim C1, counterexample.  At the concrete uninitialized device dev0,
adc_disable_channel returns with an empty effect trace: no assertion fires
and no vendor call is made, a silent early return.  And pinMode on an
invalid mode (9) produces only the debug assertion effect and then returns:
GPIO_SetFunc and GPIO_Init are never reached, so in release builds (where
the assertion is compiled out) it silently returns early. -/
theorem claim_C1_counterexample :
    (adc_disable_channel dev0 3 mcu0).2 = [] ∧
    (pinMode board0 devs0 mcu0 0 9).2.2 =
      [Effect.assertFailure msg_pinMode_invalid_mode] := by
  constructor <;> rfl

/-- Claim C1 as amended: detected failures are handled by debug-build
assertions and no error codes exist, but two recovery paths do: on an
uninitialized device adc_disable_channel silently returns early with no
assertion and no vendor call, and on an invalid pin mode pinMode records
the debug assertion and returns early, never reaching GPIO_SetFunc or
GPIO_Init. -/
theorem claim_C1_amended (device : AdcDevice) (mcu : McuState) (ch : Nat)
    (board : Board) (devices : Nat → AdcDevice) (pin mode : Nat)
    (hdev : device.state.initialized = false)
    (hpin : pin < board.nr_gpio_pins)
    (h1 : mode ≠ INPUT) (h2 : mode ≠ INPUT_PULLUP) (h3 : mode ≠ INPUT_ANALOG)
    (h4 : mode ≠ OUTPUT) :
    adc_disable_channel device ch mcu = (mcu, []) ∧
    Effect.assertFailure msg_pinMode_invalid_mode ∈
      (pinMode board devices mcu pin mode).2.2 ∧
    (pinMode board devices mcu pin mode).2.1.gpioConfig = mcu.gpioConfig ∧
    (∀ p c, Effect.gpioInit p c ∉ (pinMode board devices mcu pin mode).2.2) ∧
    (∀ p f s,
      Effect.gpioSetFunc p f s ∉ (pinMode board devices mcu pin mode).2.2) := by
  have hsw := pinModeSwitch_eq_none mode h1 h2 h3 h4
  have hpart := pinMode_invalid_part board devices mcu pin mode hpin hsw
  refine ⟨?_, ?_, ?_, ?_, ?_⟩
  · simp [adc_disable_channel, hdev]
  · rw [hpart]
    simp
  · rw [hpart]
    exact pinModeAdcBlock_gpioConfig devices mcu (board.pin_map pin) mode
  · intro p c
    rw [hpart]
    have hng := (pinModeAdcBlock_no_gpio devices mcu (board.pin_map pin) mode).1 p c
    simp only [List.mem_append, List.mem_singleton]
    rintro ((h | h) | h)
    · exact absurd h (by simp [ASSERT_GPIO_PIN_VALID, CORE_ASSERT, hpin])
    · exact hng h
    · exact Effect.noConfusion h
  · intro p f s
    rw [hpart]
    have hng := (pinModeAdcBlock_no_gpio devices mcu (board.pin_map pin) mode).2 p f s
    simp only [List.mem_append, List.mem_singleton]
    rintro ((h | h) | h)
    · exact absurd h (by simp [ASSERT_GPIO_PIN_VALID, CORE_ASSERT, hpin])
    · exact hng h
    · exact Effect.noConfusion h

/-- Witness for the amended C1 at dev0 (uninitialized), board0, pin 0 and
invalid mode 9. -/
theorem claim_C1_amended_witness :
    dev0.state.initialized = false ∧ 0 < board0.nr_gpio_pins ∧
    (9 ≠ INPUT ∧ 9 ≠ INPUT_PULLUP ∧ 9 ≠ INPUT_ANALOG ∧ 9 ≠ OUTPUT) ∧
    (adc_disable_channel dev0 3 mcu0 = (mcu0, []) ∧
      Effect.assertFailure msg_pinMode_invalid_mode ∈
        (pinMode board0 devs0 mcu0 0 9).2.2) :=
  ⟨rfl, by decide, ⟨by decide, by decide, by decide, by decide⟩,
    (claim_C1_amended dev0 mcu0 3 board0 devs0 0 9 rfl (by decide)
        (by decide) (by decide) (by decide) (by decide)).1,
    (claim_C1_amended dev0 mcu0 3 board0 devs0 0 9 rfl (by decide)
        (by decide) (by decide) (by decide) (by decide)).2.1⟩

/-- Claim C6: digitalRead maps a set input bit to HIGH and a clear one to
LOW for valid pins, returns LOW without touching the hardware for invalid
pins, and digitalWrite calls GPIO_SetBits exactly for value HIGH and
GPIO_ResetBits for any other value. -/
theorem claim_C6 (board : Board) (mcu : McuState) (pin val : Nat) :
    (pin < board.nr_gpio_pins →
      (digitalRead board mcu pin).1 =
        (if mcu.gpioInputBits pin then HIGH else LOW)) ∧
    (board.nr_gpio_pins ≤ pin →
      (digitalRead board mcu pin).1 = LOW ∧
      (∀ p, Effect.gpioGetBit p ∉ (digitalRead board mcu pin).2)) ∧
    (pin < board.nr_gpio_pins → val = HIGH →
      Effect.gpioSetBits pin ∈ (digitalWrite board mcu pin val).2 ∧
      (∀ p, Effect.gpioResetBits p ∉ (digitalWrite board mcu pin val).2)) ∧
    (pin < board.nr_gpio_pins → val ≠ HIGH →
      Effect.gpioResetBits pin ∈ (digitalWrite board mcu pin val).2 ∧
      (∀ p, Effect.gpioSetBits p ∉ (digitalWrite board mcu pin val).2)) := by
  refine ⟨?_, ?_, ?_, ?_⟩
  · intro h
    simp [digitalRead, Nat.not_le.mpr h, GPIO_GetBit]
  · intro h
    refine ⟨?_, ?_⟩
    · simp [digitalRead, h]
    · intro p
      simp [digitalRead, h, ASSERT_GPIO_PIN_VALID, CORE_ASSERT,
        Nat.not_lt.mpr h]
  · intro h hv
    constructor
    · simp [digitalWrite, Nat.not_le.mpr h, hv, GPIO_SetBits]
    · intro p
      simp [digitalWrite, Nat.not_le.mpr h, hv, GPIO_SetBits,
        ASSERT_GPIO_PIN_VALID, CORE_ASSERT, h]
  · intro h hv
    constructor
    · simp [digitalWrite, Nat.not_le.mpr h, hv, GPIO_ResetBits]
    · intro p
      simp [digitalWrite, Nat.not_le.mpr h, hv, GPIO_ResetBits,
        ASSERT_GPIO_PIN_VALID, CORE_ASSERT, h]

/-- Witness for C6 at board0, pin 1, value HIGH (and the out-of-range pin
9 for the LOW clause). -/
theorem claim_C6_witness :
    (1 < board0.nr_gpio_pins ∧
      (digitalRead board0 mcu0 1).1 =
        (if mcu0.gpioInputBits 1 then HIGH else LOW) ∧
      Effect.gpioSetBits 1 ∈ (digitalWrite board0 mcu0 1 HIGH).2) ∧
    (board0.nr_gpio_pins ≤ 9 ∧ (digitalRead board0 mcu0 9).1 = LOW) :=
  ⟨⟨by decide, (claim_C6 board0 mcu0 1 HIGH).1 (by decide),
      ((claim_C6 board0 mcu0 1 HIGH).2.2.1 (by decide) rfl).1⟩,
    ⟨by decide, ((claim_C6 board0 mcu0 9 HIGH).2.1 (by decide)).1⟩⟩

/-- Claim C5: for a valid pin and a recognised mode, pinMode sets the pin
function via GPIO_SetFunc(Func_Gpio) and writes via GPIO_Init exactly the
mapping INPUT -> Pin_Mode_In, INPUT_PULLUP -> Pin_Mode_In with pull-up
enabled, INPUT_ANALOG -> Pin_Mode_Ana, OUTPUT -> Pin_Mode_Out; and when the
pin has a valid ADC mapping, INPUT_ANALOG initializes the device and
registers the ADC channel while any other recognised mode disables it
(the SDK delete call happening whenever the device is initialized). -/
theorem claim_C5 (board : Board) (devices : Nat → AdcDevice) (mcu : McuState)
    (pin mode : Nat)
    (hpin : pin < board.nr_gpio_pins)
    (hmode : mode = INPUT ∨ mode = INPUT_PULLUP ∨ mode = INPUT_ANALOG ∨
      mode = OUTPUT) :
    Effect.gpioSetFunc pin Func_Gpio FuncState.Enable ∈
      (pinMode board devices mcu pin mode).2.2 ∧
    (mode = INPUT →
      (pinMode board devices mcu pin mode).2.1.gpioConfig pin =
        { enPinMode := PinModeHw.Pin_Mode_In, enPullUp := FuncState.Disable } ∧
      Effect.gpioInit pin
          { enPinMode := PinModeHw.Pin_Mode_In, enPullUp := FuncState.Disable } ∈
        (pinMode board devices mcu pin mode).2.2) ∧
    (mode = INPUT_PULLUP →
      (pinMode board devices mcu pin mode).2.1.gpioConfig pin =
        { enPinMode := PinModeHw.Pin_Mode_In, enPullUp := FuncState.Enable } ∧
      Effect.gpioInit pin
          { enPinMode := PinModeHw.Pin_Mode_In, enPullUp := FuncState.Enable } ∈
        (pinMode board devices mcu pin mode).2.2) ∧
    (mode = INPUT_ANALOG →
      (pinMode board devices mcu pin mode).2.1.gpioConfig pin =
        { enPinMode := PinModeHw.Pin_Mode_Ana, enPullUp := FuncState.Disable } ∧
      Effect.gpioInit pin
          { enPinMode := PinModeHw.Pin_Mode_Ana, enPullUp := FuncState.Disable } ∈
        (pinMode board devices mcu pin mode).2.2) ∧
    (mode = OUTPUT →
      (pinMode board devices mcu pin mode).2.1.gpioConfig pin =
        { enPinMode := PinModeHw.Pin_Mode_Out, enPullUp := FuncState.Disable } ∧
      Effect.gpioInit pin
          { enPinMode := PinModeHw.Pin_Mode_Out, enPullUp := FuncState.Disable } ∈
        (pinMode board devices mcu pin mode).2.2) ∧
    (∀ devId, (board.pin_map pin).adc_device = some devId →
      (board.pin_map pin).adc_channel ≠ ADC_PIN_INVALID →
      (mode = INPUT_ANALOG →
        ((pinMode board devices mcu pin mode).1 devId).state.initialized =
          true ∧
        Effect.adcAddAdcChannel (devices devId).adc.register_base
          { u32Channel := (1 <<< (board.pin_map pin).adc_channel) % 2 ^ 32
            u8Sequence := (devices devId).adc.sequence
            sampleTime := ADC_DEFAULT_SAMPLE_TIME } ∈
          (pinMode board devices mcu pin mode).2.2) ∧
      (mode ≠ INPUT_ANALOG → (devices devId).state.initialized = true →
        Effect.adcDelAdcChannel (devices devId).adc.register_base
          ((1 <<< (board.pin_map pin).adc_channel) % 2 ^ 32) ∈
          (pinMode board devices mcu pin mode).2.2)) := by
  rcases hmode with rfl | rfl | rfl | rfl
  · have hpart := pinMode_gpio_part board devices mcu pin INPUT
      { enPinMode := PinModeHw.Pin_Mode_In, enPullUp := FuncState.Disable }
      hpin (by decide)
    refine ⟨?_, fun _ => ⟨hpart.2.1, ?_⟩, fun h => absurd h (by decide),
      fun h => absurd h (by decide), fun h => absurd h (by decide),
      fun devId hdev hch => ⟨fun h => absurd h (by decide), fun _ hinit => ?_⟩⟩
    · rw [hpart.2.2]
      simp
    · rw [hpart.2.2]
      simp
    · rw [hpart.2.2]
      exact List.mem_append_left _ (List.mem_append_right _
        (pinModeAdcBlock_nonAnalog devices mcu (board.pin_map pin) devId INPUT
          hdev hch (by decide) hinit))
  · have hpart := pinMode_gpio_part board devices mcu pin INPUT_PULLUP
      { enPinMode := PinModeHw.Pin_Mode_In, enPullUp := FuncState.Enable }
      hpin (by decide)
    refine ⟨?_, fun h => absurd h (by decide), fun _ => ⟨hpart.2.1, ?_⟩,
      fun h => absurd h (by decide), fun h => absurd h (by decide),
      fun devId hdev hch => ⟨fun h => absurd h (by decide), fun _ hinit => ?_⟩⟩
    · rw [hpart.2.2]
      simp
    · rw [hpart.2.2]
      simp
    · rw [hpart.2.2]
      exact List.mem_append_left _ (List.mem_append_right _
        (pinModeAdcBlock_nonAnalog devices mcu (board.pin_map pin) devId
          INPUT_PULLUP hdev hch (by decide) hinit))
  · have hpart := pinMode_gpio_part board devices mcu pin INPUT_ANALOG
      { enPinMode := PinModeHw.Pin_Mode_Ana, enPullUp := FuncState.Disable }
      hpin (by decide)
    refine ⟨?_, fun h => absurd h (by decide), fun h => absurd h (by decide),
      fun _ => ⟨hpart.2.1, ?_⟩, fun h => absurd h (by decide),
      fun devId hdev hch => ⟨fun _ => ?_, fun h _ => absurd rfl h⟩⟩
    · rw [hpart.2.2]
      simp
    · rw [hpart.2.2]
      simp
    · have ha := pinModeAdcBlock_analog devices mcu (board.pin_map pin) devId
        hdev hch
      refine ⟨?_, ?_⟩
      · rw [hpart.1]
        exact ha.1
      · rw [hpart.2.2]
        exact List.mem_append_left _ (List.mem_append_right _ ha.2)
  · have hpart := pinMode_gpio_part board devices mcu pin OUTPUT
      { enPinMode := PinModeHw.Pin_Mode_Out, enPullUp := FuncState.Disable }
      hpin (by decide)
    refine ⟨?_, fun h => absurd h (by decide), fun h => absurd h (by decide),
      fun h => absurd h (by decide), fun _ => ⟨hpart.2.1, ?_⟩,
      fun devId hdev hch => ⟨fun h => absurd h (by decide), fun _ hinit => ?_⟩⟩
    · rw [hpart.2.2]
      simp
    · rw [hpart.2.2]
      simp
    · rw [hpart.2.2]
      exact List.mem_append_left _ (List.mem_append_right _
        (pinModeAdcBlock_nonAnalog devices mcu (board.pin_map pin) devId OUTPUT
          hdev hch (by decide) hinit))

/-- Witness for C5 at board0, pin 2 (ADC-mapped), mode INPUT_ANALOG, with
the device store devs0i. -/
theorem claim_C5_witness :
    2 < board0.nr_gpio_pins ∧
    (board0.pin_map 2).adc_device = some 0 ∧
    (board0.pin_map 2).adc_channel ≠ ADC_PIN_INVALID ∧
    Effect.gpioSetFunc 2 Func_Gpio FuncState.Enable ∈
      (pinMode board0 devs0i mcu0 2 INPUT_ANALOG).2.2 ∧
    ((pinMode board0 devs0i mcu0 2 INPUT_ANALOG).1 0).state.initialized =
      true :=
  ⟨by decide, by decide, by decide,
    (claim_C5 board0 devs0i mcu0 2 INPUT_ANALOG (by decide)
        (Or.inr (Or.inr (Or.inl rfl)))).1,
    (((claim_C5 board0 devs0i mcu0 2 INPUT_ANALOG (by decide)
          (Or.inr (Or.inr (Or.inl rfl)))).2.2.2.2.2 0 (by decide)
        (by decide)).1 rfl).1⟩

/-- Claim C9: for a valid ADC-mapped pin and a mode outside the four
recognised ones, pinMode leaves the GPIO function and configuration
unchanged (no GPIO_SetFunc or GPIO_Init happens), but when the mapped
device is initialized it still disables the ADC channel before
returning. -/
theorem claim_C9 (board : Board) (devices : Nat → AdcDevice) (mcu : McuState)
    (pin mode devId : Nat)
    (hpin : pin < board.nr_gpio_pins)
    (hdev : (board.pin_map pin).adc_device = some devId)
    (hch : (board.pin_map pin).adc_channel ≠ ADC_PIN_INVALID)
    (h1 : mode ≠ INPUT) (h2 : mode ≠ INPUT_PULLUP) (h3 : mode ≠ INPUT_ANALOG)
    (h4 : mode ≠ OUTPUT) :
    (pinMode board devices mcu pin mode).2.1.gpioConfig = mcu.gpioConfig ∧
    (∀ p c, Effect.gpioInit p c ∉ (pinMode board devices mcu pin mode).2.2) ∧
    (∀ p f s,
      Effect.gpioSetFunc p f s ∉ (pinMode board devices mcu pin mode).2.2) ∧
    ((devices devId).state.initialized = true →
      Effect.adcDelAdcChannel (devices devId).adc.register_base
        ((1 <<< (board.pin_map pin).adc_channel) % 2 ^ 32) ∈
        (pinMode board devices mcu pin mode).2.2) := by
  have hsw := pinModeSwitch_eq_none mode h1 h2 h3 h4
  have hpart := pinMode_invalid_part board devices mcu pin mode hpin hsw
  refine ⟨?_, ?_, ?_, ?_⟩
  · rw [hpart]
    exact pinModeAdcBlock_gpioConfig devices mcu (board.pin_map pin) mode
  · intro p c
    rw [hpart]
    have hng := (pinModeAdcBlock_no_gpio devices mcu (board.pin_map pin) mode).1 p c
    simp only [List.mem_append, List.mem_singleton]
    rintro ((h | h) | h)
    · exact absurd h (by simp [ASSERT_GPIO_PIN_VALID, CORE_ASSERT, hpin])
    · exact hng h
    · exact Effect.noConfusion h
  · intro p f s
    rw [hpart]
    have hng := (pinModeAdcBlock_no_gpio devices mcu (board.pin_map pin) mode).2 p f s
    simp only [List.mem_append, List.mem_singleton]
    rintro ((h | h) | h)
    · exact absurd h (by simp [ASSERT_GPIO_PIN_VALID, CORE_ASSERT, hpin])
    · exact hng h
    · exact Effect.noConfusion h
  · intro hinit
    rw [hpart]
    exact List.mem_append_left _ (List.mem_append_right _
      (pinModeAdcBlock_nonAnalog devices mcu (board.pin_map pin) devId mode
        hdev hch h3 hinit))

/-- Witness for C9 at board0, pin 2, invalid mode 9, with the initialized
device store devs0i. -/
theorem claim_C9_witness :
    2 < board0.nr_gpio_pins ∧
    (board0.pin_map 2).adc_device = some 0 ∧
    (board0.pin_map 2).adc_channel ≠ ADC_PIN_INVALID ∧
    (9 ≠ INPUT ∧ 9 ≠ INPUT_PULLUP ∧ 9 ≠ INPUT_ANALOG ∧ 9 ≠ OUTPUT) ∧
    (devs0i 0).state.initialized = true ∧
    (pinMode board0 devs0i mcu0 2 9).2.1.gpioConfig = mcu0.gpioConfig ∧
    Effect.adcDelAdcChannel (devs0i 0).adc.register_base
        ((1 <<< (board0.pin_map 2).adc_channel) % 2 ^ 32) ∈
      (pinMode board0 devs0i mcu0 2 9).2.2 :=
  ⟨by decide, by decide, by decide,
    ⟨by decide, by decide, by decide, by decide⟩, rfl,
    (claim_C9 board0 devs0i mcu0 2 9 0 (by decide) (by decide) (by decide)
        (by decide) (by decide) (by decide) (by decide)).1,
    (claim_C9 board0 devs0i mcu0 2 9 0 (by decide) (by decide) (by decide)
        (by decide) (by decide) (by decide) (by decide)).2.2.2 rfl⟩

/-- Claim C10: configuring a valid pin with one of the four recognised
modes and reading it back with getPinMode returns that same mode (the
embedding makes GPIO_GetConfig read what GPIO_Init wrote, which is the
claim's stated assumption); for out-of-range pins getPinMode returns
INPUT_FLOATING. -/
theorem claim_C10 (board : Board) (devices : Nat → AdcDevice) (mcu : McuState)
    (pin mode : Nat)
    (hpin : pin < board.nr_gpio_pins)
    (hmode : mode = INPUT ∨ mode = INPUT_PULLUP ∨ mode = INPUT_ANALOG ∨
      mode = OUTPUT) :
    (getPinMode board (pinMode board devices mcu pin mode).2.1 pin).1 = mode ∧
    (∀ p, board.nr_gpio_pins ≤ p → (getPinMode board mcu p).1 = INPUT_FLOATING) := by
  have hle : ¬ board.nr_gpio_pins ≤ pin := Nat.not_le.mpr hpin
  constructor
  · rcases hmode with rfl | rfl | rfl | rfl
    · have hc := (pinMode_gpio_part board devices mcu pin INPUT
        { enPinMode := PinModeHw.Pin_Mode_In, enPullUp := FuncState.Disable }
        hpin (by decide)).2.1
      simp [getPinMode, hle, GPIO_GetConfig, hc]
    · have hc := (pinMode_gpio_part board devices mcu pin INPUT_PULLUP
        { enPinMode := PinModeHw.Pin_Mode_In, enPullUp := FuncState.Enable }
        hpin (by decide)).2.1
      simp [getPinMode, hle, GPIO_GetConfig, hc]
    · have hc := (pinMode_gpio_part board devices mcu pin INPUT_ANALOG
        { enPinMode := PinModeHw.Pin_Mode_Ana, enPullUp := FuncState.Disable }
        hpin (by decide)).2.1
      simp [getPinMode, hle, GPIO_GetConfig, hc]
    · have hc := (pinMode_gpio_part board devices mcu pin OUTPUT
        { enPinMode := PinModeHw.Pin_Mode_Out, enPullUp := FuncState.Disable }
        hpin (by decide)).2.1
      simp [getPinMode, hle, GPIO_GetConfig, hc]
  · intro p hp
    simp [getPinMode, hp]

/-- Witness for C10 at board0, pin 1, mode OUTPUT, plus the out-of-range
pin 9. -/
theorem claim_C10_witness :
    1 < board0.nr_gpio_pins ∧
    (getPinMode board0 (pinMode board0 devs0 mcu0 1 OUTPUT).2.1 1).1 =
      OUTPUT ∧
    (getPinMode board0 mcu0 9).1 = INPUT_FLOATING :=
  ⟨by decide,
    (claim_C10 board0 devs0 mcu0 1 OUTPUT (by decide)
        (Or.inr (Or.inr (Or.inr rfl)))).1,
    (claim_C10 board0 devs0 mcu0 1 OUTPUT (by decide)
        (Or.inr (Or.inr (Or.inr rfl)))).2 9 (by decide)⟩

end HC32
